import Mathlib

/-!
Shallow embedding of the lastfm-spotify syncer core (`src/syncer/app.py`)
and proofs about its matching, caching and orchestration logic.

External collaborators (the fuzzy scorer `fuzz.ratio`, the interactive
confirmation read from stdin, the Spotify search and playlist endpoints,
the LastFM like endpoint) are modelled as explicit function parameters or
as recorded effect lists; the control flow of the syncer itself is
translated statement by statement from the Python source.
-/

namespace Syncer

/-- `SyncTrack` from `src/syncer/model.py`: the resolved match entity. -/
structure SyncTrack where
  last_fm_artist : String
  last_fm_song : String
  spotify_track_uri : String
  deriving Repr, DecidableEq

/-- One artist entry of a Spotify search item (`search_item['artists']`). -/
structure SpArtist where
  name : String
  deriving Repr, DecidableEq

/-- One Spotify search result item: `search_item['artists']`, `search_item['name']`,
`search_item['uri']`. -/
structure SearchItem where
  artists : List SpArtist
  name : String
  uri : String
  deriving Repr, DecidableEq

/-- The part of the Spotify search response read by `_find_search_match`:
`search_results['tracks']['total']` and `search_results['tracks']['items']`. -/
structure SearchResults where
  total : Nat
  items : List SearchItem
  deriving Repr, DecidableEq

/-- A LastFM loved track as read by the syncer:
`track.track.artist.name` and `track.track.get_name()`. -/
structure LovedTrack where
  artistName : String
  trackName : String
  deriving Repr, DecidableEq

/-- A Spotify liked track as yielded by `SpotifyService.get_liked_tracks`:
`{'artist': ..., 'name': ..., 'id': ...}`. -/
structure SpTrack where
  artist : String
  name : String
  id : String
  deriving Repr, DecidableEq

/-! ## Processed-track cache (`_load_processed_tracks` / `_dump_processed_tracks`)

The cache file `.cache_processed` is modelled by its observable states:
absent from disk, present but empty, or holding a JSON list of ids. -/

/-- State of the `.cache_processed` file on disk. -/
inductive CacheFile where
  /-- the file does not exist -/
  | absent : CacheFile
  /-- the file exists with empty (or whitespace-only) content -/
  | empty : CacheFile
  /-- the file exists and holds the JSON list `ids` -/
  | stored (ids : List String) : CacheFile
  deriving Repr, DecidableEq

/-- Error signals of the file layer. -/
inductive FsError where
  /-- `FileNotFoundError`, raised by `open(path, 'r+')` when `path` does not exist -/
  | fileNotFound : FsError
  deriving Repr, DecidableEq

/-- `Syncer._load_processed_tracks`: `open(self._cache_file, 'r+')` raises
`FileNotFoundError` when the file is absent (mode `r+` does not create it);
otherwise the body reads the content, substitutes `'[]'` for an empty read
(`f.read().strip() or '[]'`) and parses the JSON list. -/
def load_processed_tracks : CacheFile → Except FsError (List String)
  | CacheFile.absent => Except.error FsError.fileNotFound
  | CacheFile.empty => Except.ok []
  | CacheFile.stored ids => Except.ok ids

/-! ## `sync_spotify_likes_with_lastfm`

The loop walks Spotify liked tracks, skips ids already in the loaded cache,
likes the rest on LastFM (effect recorded as an (artist, name) pair) and
collects their ids into `new_ids`; afterwards it rewrites the cache file iff
`new_ids.difference(cached_track_ids)` is non-empty. -/

/-- Body of the `for track in ...get_liked_tracks()` loop: returns the list of
LastFM like effects in emission order and the final `new_ids` set. -/
def syncLikesLoop (cached : Finset String) : List SpTrack → List (String × String) × Finset String
  | [] => ([], ∅)
  | t :: ts =>
    if t.id ∈ cached then
      syncLikesLoop cached ts
    else
      let rest := syncLikesLoop cached ts
      ((t.artist, t.name) :: rest.1, insert t.id rest.2)

/-- LastFM like effects (`self.lastfm_service.like_track`) of one run. -/
def syncLikes (tracks : List SpTrack) (cached : Finset String) : List (String × String) :=
  (syncLikesLoop cached tracks).1

/-- The `new_ids` set at the end of one run. -/
def syncNewIds (tracks : List SpTrack) (cached : Finset String) : Finset String :=
  (syncLikesLoop cached tracks).2

/-- The cache write of one run: `if new_ids.difference(cached_track_ids):`
dump `cached_track_ids.union(new_ids)`, else write nothing. -/
def syncDump (tracks : List SpTrack) (cached : Finset String) : Option (Finset String) :=
  if syncNewIds tracks cached \ cached = ∅ then none
  else some (cached ∪ syncNewIds tracks cached)

/-- Content of the cache file after one run: the dumped set when a dump
happened, the prior content otherwise. -/
def cacheAfterRun (tracks : List SpTrack) (cached : Finset String) : Finset String :=
  match syncDump tracks cached with
  | some c => c
  | none => cached

/-! ## `_find_search_match` -/

/-- Python `str.lower()` applied character-wise (the code's `l = lambda s: s.lower()`). -/
def pyLower (s : String) : String :=
  String.mk (s.data.map Char.toLower)

/-- What `are_tracks_the_same` shows the human: the (spotify artist, spotify
song) pair and the (lastfm artist, lastfm song) pair, all lowercased. -/
abbrev Prompt := (String × String) × (String × String)

/-- Inner loop of `_find_search_match`: `for artist in search_item['artists']`.
`ratio` stands for the external scorer `fuzz.ratio` and `confirm` for the
interactive `are_tracks_the_same` answer; the second component records each
confirmation prompt issued, in order. -/
def findArtistsMatch (ratio : String → String → Nat)
    (confirm : String × String → String × String → Bool) (mr : Nat)
    (lfArtist lfSong itemName itemUri : String) :
    List SpArtist → Option SyncTrack × List Prompt
  | [] => (none, [])
  | a :: rest =>
    let spotifyArtist := pyLower a.name
    let spotifySong := pyLower itemName
    let syncTrack : SyncTrack :=
      { last_fm_artist := lfArtist, last_fm_song := lfSong, spotify_track_uri := itemUri }
    let artistRatio := ratio lfArtist spotifyArtist
    let songRatio := ratio lfSong spotifySong
    if songRatio ≥ mr ∧ artistRatio ≥ mr then
      (some syncTrack, [])
    else if songRatio + artistRatio ≥ 140 then
      if confirm (spotifyArtist, spotifySong) (lfArtist, lfSong) then
        (some syncTrack, [((spotifyArtist, spotifySong), (lfArtist, lfSong))])
      else
        let r := findArtistsMatch ratio confirm mr lfArtist lfSong itemName itemUri rest
        (r.1, ((spotifyArtist, spotifySong), (lfArtist, lfSong)) :: r.2)
    else
      findArtistsMatch ratio confirm mr lfArtist lfSong itemName itemUri rest

/-- Outer loop of `_find_search_match`: `for search_item in
search_results['tracks']['items']`; a `return` inside the artist loop leaves
both loops. -/
def findItemsMatch (ratio : String → String → Nat)
    (confirm : String × String → String × String → Bool) (mr : Nat)
    (lfArtist lfSong : String) : List SearchItem → Option SyncTrack × List Prompt
  | [] => (none, [])
  | item :: rest =>
    let r := findArtistsMatch ratio confirm mr lfArtist lfSong item.name item.uri item.artists
    match r.1 with
    | some st => (some st, r.2)
    | none =>
      let r2 := findItemsMatch ratio confirm mr lfArtist lfSong rest
      (r2.1, r.2 ++ r2.2)

/-- `Syncer._find_search_match`: bail out when `tracks.total` is falsy, else
lowercase the source names once and scan the result items. Returns the match
(`None` on fall-through) together with the confirmation prompts issued. -/
def findSearchMatch (ratio : String → String → Nat)
    (confirm : String × String → String × String → Bool)
    (track : LovedTrack) (results : SearchResults) (mr : Nat) :
    Option SyncTrack × List Prompt :=
  if results.total = 0 then (none, [])
  else
    findItemsMatch ratio confirm mr (pyLower track.artistName) (pyLower track.trackName)
      results.items

/-- One candidate of the nested scan: an (artist, item) pair, carrying the raw
artist name, the item name and the item uri. -/
structure Candidate where
  artistName : String
  songName : String
  uri : String
  deriving Repr, DecidableEq

/-- The candidates of the nested `items × artists` scan, in iteration order. -/
def flattenItems (items : List SearchItem) : List Candidate :=
  (items.map (fun it => it.artists.map (fun a => Candidate.mk a.name it.name it.uri))).flatten

/-- The candidate scan of `_find_search_match`, phrased on the flattened
candidate list. -/
def resolveFlat (ratio : String → String → Nat)
    (confirm : String × String → String × String → Bool) (mr : Nat)
    (lfArtist lfSong : String) : List Candidate → Option SyncTrack × List Prompt
  | [] => (none, [])
  | c :: rest =>
    if ratio lfSong (pyLower c.songName) ≥ mr ∧ ratio lfArtist (pyLower c.artistName) ≥ mr then
      (some { last_fm_artist := lfArtist, last_fm_song := lfSong, spotify_track_uri := c.uri }, [])
    else if ratio lfSong (pyLower c.songName) + ratio lfArtist (pyLower c.artistName) ≥ 140 then
      if confirm (pyLower c.artistName, pyLower c.songName) (lfArtist, lfSong) then
        (some { last_fm_artist := lfArtist, last_fm_song := lfSong, spotify_track_uri := c.uri },
         [((pyLower c.artistName, pyLower c.songName), (lfArtist, lfSong))])
      else
        ((resolveFlat ratio confirm mr lfArtist lfSong rest).1,
         ((pyLower c.artistName, pyLower c.songName), (lfArtist, lfSong))
           :: (resolveFlat ratio confirm mr lfArtist lfSong rest).2)
    else
      resolveFlat ratio confirm mr lfArtist lfSong rest

/-- Auto-accept tier test for a candidate: both scores reach `mr`. -/
abbrev candAuto (ratio : String → String → Nat) (mr : Nat) (lfArtist lfSong : String)
    (c : Candidate) : Prop :=
  ratio lfSong (pyLower c.songName) ≥ mr ∧ ratio lfArtist (pyLower c.artistName) ≥ mr

/-- Ambiguous tier test for a candidate: combined score reaches 140. -/
abbrev candAmbiguous (ratio : String → String → Nat) (lfArtist lfSong : String)
    (c : Candidate) : Prop :=
  ratio lfSong (pyLower c.songName) + ratio lfArtist (pyLower c.artistName) ≥ 140

/-- The prompt `are_tracks_the_same` would show for a candidate. -/
def candPrompt (lfArtist lfSong : String) (c : Candidate) : Prompt :=
  ((pyLower c.artistName, pyLower c.songName), (lfArtist, lfSong))

/-- The `SyncTrack` built for a candidate. -/
def candSync (lfArtist lfSong : String) (c : Candidate) : SyncTrack :=
  { last_fm_artist := lfArtist, last_fm_song := lfSong, spotify_track_uri := c.uri }

/-- The human's answer for a candidate's prompt. -/
def confirmAns (confirm : String × String → String × String → Bool)
    (lfArtist lfSong : String) (c : Candidate) : Bool :=
  confirm (pyLower c.artistName, pyLower c.songName) (lfArtist, lfSong)

/-- A candidate the scan passes over: not auto-accepted, and not an
ambiguous candidate the human confirms. -/
abbrev candSkipped (ratio : String → String → Nat)
    (confirm : String × String → String × String → Bool) (mr : Nat)
    (lfArtist lfSong : String) (c : Candidate) : Prop :=
  ¬ candAuto ratio mr lfArtist lfSong c ∧
    ¬ (candAmbiguous ratio lfArtist lfSong c ∧ confirmAns confirm lfArtist lfSong c = true)

/-- Prompts issued while passing over a list of candidates: one per
ambiguous (non-auto) candidate, in iteration order. -/
def skippedPrompts (ratio : String → String → Nat) (mr : Nat) (lfArtist lfSong : String)
    (cs : List Candidate) : List Prompt :=
  (cs.filter (fun c =>
      decide (¬ candAuto ratio mr lfArtist lfSong c ∧ candAmbiguous ratio lfArtist lfSong c))).map
    (candPrompt lfArtist lfSong)

/-! ## `sync_liked_tracks_from_lastfm_with_spotify` and `_add_liked_tracks_to_spotify` -/

/-- The `do_chunk` helper of `_add_liked_tracks_to_spotify`: repeatedly slice
off `size` elements until the slice comes back empty. -/
def doChunk (size : Nat) (l : List α) : List (List α) :=
  if h : (l.take size).isEmpty then []
  else l.take size :: doChunk size (l.drop size)
termination_by l.length
decreasing_by
  rw [List.length_drop]
  have hl : l ≠ [] := by
    intro e
    rw [e] at h
    simp [List.take_nil] at h
  have hs : 0 < size := by
    rcases Nat.eq_zero_or_pos size with hz | hp
    · rw [hz] at h
      simp [List.take_zero] at h
    · exact hp
  exact Nat.sub_lt (List.length_pos.mpr hl) hs

/-- `_add_liked_tracks_to_spotify`: the `playlist_add_items` calls, each one a
batch of at most 100 track uris, in resolution order. -/
def addLikedTracksCalls (tracks_to_load : List SyncTrack) : List (List String) :=
  (doChunk 100 tracks_to_load).map (fun chunk => chunk.map (fun t => t.spotify_track_uri))

/-- The Spotify search query built for a loved track:
`f'{track.track.artist.name} {track.track.get_name()}'`. -/
def searchQuery (t : LovedTrack) : String :=
  t.artistName ++ " " ++ t.trackName

/-- Main loop of `sync_liked_tracks_from_lastfm_with_spotify`: a resolved
match whose uri is not yet in the playlist goes to `tracks_to_load`,
everything else (no match, or match already present) goes to `missed_tracks`. -/
def syncLoop (resolveTrack : LovedTrack → Option SyncTrack) (track_uris : List String) :
    List LovedTrack → List SyncTrack × List LovedTrack
  | [] => ([], [])
  | t :: ts =>
    let rest := syncLoop resolveTrack track_uris ts
    match resolveTrack t with
    | some st =>
      if st.spotify_track_uri ∈ track_uris then (rest.1, t :: rest.2)
      else (st :: rest.1, rest.2)
    | none => (rest.1, t :: rest.2)

/-- Per-track resolution step of the orchestrator: search Spotify with the
built query and run `_find_search_match` (default `match_ratio=85`). -/
def resolveLastfmTrack (ratio : String → String → Nat)
    (confirm : String × String → String × String → Bool)
    (search : String → SearchResults) (t : LovedTrack) : Option SyncTrack :=
  (findSearchMatch ratio confirm t (search (searchQuery t)) 85).1

/-- `tracks_to_load` at the end of the orchestrator loop. -/
def syncLastfmLoads (ratio : String → String → Nat)
    (confirm : String × String → String × String → Bool)
    (search : String → SearchResults) (track_uris : List String)
    (loved : List LovedTrack) : List SyncTrack :=
  (syncLoop (resolveLastfmTrack ratio confirm search) track_uris loved).1

/-- `missed_tracks` at the end of the orchestrator loop. -/
def syncLastfmMissed (ratio : String → String → Nat)
    (confirm : String × String → String × String → Bool)
    (search : String → SearchResults) (track_uris : List String)
    (loved : List LovedTrack) : List LovedTrack :=
  (syncLoop (resolveLastfmTrack ratio confirm search) track_uris loved).2

/-- The playlist insertion calls the orchestrator fires:
`if tracks_to_load: self._add_liked_tracks_to_spotify(...)`. -/
def syncLastfmPlaylistCalls (ratio : String → String → Nat)
    (confirm : String × String → String × String → Bool)
    (search : String → SearchResults) (track_uris : List String)
    (loved : List LovedTrack) : List (List String) :=
  if syncLastfmLoads ratio confirm search track_uris loved = [] then []
  else addLikedTracksCalls (syncLastfmLoads ratio confirm search track_uris loved)

/-! ## Concrete scenario inputs used by witnesses and counterexamples -/

/-- A scorer that rates every pair 70: each single candidate scores in the
ambiguous band (70 + 70 = 140) whenever 70 is below the accept threshold. -/
def exRatio70 : String → String → Nat := fun _ _ => 70

/-- A scorer rating equal strings 100 and different ones 70. -/
def exRatioEq : String → String → Nat := fun a b => if a = b then 100 else 70

/-- A human that confirms every prompt. -/
def exYes : String × String → String × String → Bool := fun _ _ => true

/-- A human that declines every prompt. -/
def exNo : String × String → String × String → Bool := fun _ _ => false

/-- A concrete loved track. -/
def exTrack : LovedTrack := { artistName := "a", trackName := "b" }

/-- One search item, one artist: a single candidate. -/
def exResultsOne : SearchResults :=
  { total := 1, items := [{ artists := [{ name := "x" }], name := "y", uri := "u1" }] }

/-- Two single-artist items: first an ambiguous candidate (scores 70/70 under
`exRatioEq`), then an exact one (scores 100/100). -/
def exResultsAmbigAuto : SearchResults :=
  { total := 2,
    items := [{ artists := [{ name := "aa" }], name := "bb", uri := "u1" },
              { artists := [{ name := "a" }], name := "b", uri := "u2" }] }

/-- Two single-artist items: first an exact candidate (100/100 under
`exRatioEq`), then an ambiguous one (70/70). -/
def exResultsAutoAmbig : SearchResults :=
  { total := 2,
    items := [{ artists := [{ name := "a" }], name := "b", uri := "u1" },
              { artists := [{ name := "aa" }], name := "bb", uri := "u2" }] }

/-! ## Cache and sync-likes lemmas -/

lemma syncLikesLoop_cons (cached : Finset String) (t : SpTrack) (ts : List SpTrack) :
    syncLikesLoop cached (t :: ts) =
      if t.id ∈ cached then syncLikesLoop cached ts
      else ((t.artist, t.name) :: (syncLikesLoop cached ts).1,
            insert t.id (syncLikesLoop cached ts).2) := by
  by_cases h : t.id ∈ cached <;> simp [syncLikesLoop, h]

/-- The like effects of a run are exactly those for tracks whose id is not
in the loaded cache, in source order. -/
lemma syncLikes_eq_filter (tracks : List SpTrack) (cached : Finset String) :
    syncLikes tracks cached =
      (tracks.filter (fun t => decide (t.id ∉ cached))).map (fun t => (t.artist, t.name)) := by
  induction tracks with
  | nil => rfl
  | cons t ts ih =>
    by_cases h : t.id ∈ cached
    · rw [syncLikes, syncLikesLoop_cons, if_pos h, List.filter_cons, if_neg (by simp [h])]
      exact ih
    · rw [syncLikes, syncLikesLoop_cons, if_neg h, List.filter_cons, if_pos (by simp [h])]
      simp only [List.map_cons]
      exact congrArg (List.cons _) ih

/-- `new_ids` holds exactly the ids of the tracks liked during the run. -/
lemma syncNewIds_eq (tracks : List SpTrack) (cached : Finset String) :
    syncNewIds tracks cached =
      ((tracks.filter (fun t => decide (t.id ∉ cached))).map (fun t => t.id)).toFinset := by
  induction tracks with
  | nil => rfl
  | cons t ts ih =>
    by_cases h : t.id ∈ cached
    · rw [syncNewIds, syncLikesLoop_cons, if_pos h, List.filter_cons, if_neg (by simp [h])]
      exact ih
    · rw [syncNewIds, syncLikesLoop_cons, if_neg h, List.filter_cons, if_pos (by simp [h])]
      simp only [List.map_cons, List.toFinset_cons]
      exact congrArg (insert t.id) ih

/-- Ids put into `new_ids` are never ids that were already cached. -/
lemma syncNewIds_disjoint (tracks : List SpTrack) (cached : Finset String) :
    syncNewIds tracks cached \ cached = syncNewIds tracks cached := by
  rw [Finset.sdiff_eq_self_iff_disjoint, Finset.disjoint_left]
  intro x hx hx2
  rw [syncNewIds_eq] at hx
  simp only [List.mem_toFinset, List.mem_map] at hx
  rcases hx with ⟨t, ht, rfl⟩
  rw [List.mem_filter] at ht
  exact absurd hx2 (by simpa using ht.2)

/-- The dump test `new_ids.difference(cached_track_ids)` reduces to `new_ids`
itself, so the run dumps iff `new_ids` is non-empty. -/
lemma syncDump_eq (tracks : List SpTrack) (cached : Finset String) :
    syncDump tracks cached =
      if syncNewIds tracks cached = ∅ then none
      else some (cached ∪ syncNewIds tracks cached) := by
  unfold syncDump
  rw [syncNewIds_disjoint]

/-- The on-disk cache after a run is the loaded cache united with `new_ids`. -/
lemma cacheAfterRun_eq (tracks : List SpTrack) (cached : Finset String) :
    cacheAfterRun tracks cached = cached ∪ syncNewIds tracks cached := by
  unfold cacheAfterRun
  rw [syncDump_eq]
  by_cases h : syncNewIds tracks cached = ∅ <;> simp [h]

/-- Every source track's id lands in the post-run cache content. -/
lemma id_mem_cacheAfterRun {t : SpTrack} {tracks : List SpTrack} (cached : Finset String)
    (ht : t ∈ tracks) : t.id ∈ cacheAfterRun tracks cached := by
  rw [cacheAfterRun_eq]
  by_cases h : t.id ∈ cached
  · exact Finset.mem_union_left _ h
  · refine Finset.mem_union_right _ ?_
    rw [syncNewIds_eq]
    simp only [List.mem_toFinset, List.mem_map]
    exact ⟨t, List.mem_filter.mpr ⟨ht, by simpa using h⟩, rfl⟩

/-- Against the post-run cache, the skip test filters out every source track. -/
lemma filter_cacheAfterRun_nil (tracks : List SpTrack) (cached : Finset String) :
    tracks.filter (fun t => decide (t.id ∉ cacheAfterRun tracks cached)) = [] := by
  rw [List.filter_eq_nil_iff]
  intro t ht
  simpa using id_mem_cacheAfterRun cached ht

/-! ## Resolver lemmas -/

/-- The artist loop of `_find_search_match` is the flat scan of the item's
candidates. -/
lemma findArtistsMatch_eq (ratio : String → String → Nat)
    (confirm : String × String → String × String → Bool) (mr : Nat)
    (lfArtist lfSong itemName itemUri : String) (arts : List SpArtist) :
    findArtistsMatch ratio confirm mr lfArtist lfSong itemName itemUri arts =
      resolveFlat ratio confirm mr lfArtist lfSong
        (arts.map (fun a => Candidate.mk a.name itemName itemUri)) := by
  induction arts with
  | nil => rfl
  | cons a rest ih => simp [findArtistsMatch, resolveFlat, ih]

/-- Scanning a concatenation: the right part is reached iff the left part
produced no match, and prompts accumulate. -/
lemma resolveFlat_append (ratio : String → String → Nat)
    (confirm : String × String → String × String → Bool) (mr : Nat)
    (lfArtist lfSong : String) (cs ds : List Candidate) :
    resolveFlat ratio confirm mr lfArtist lfSong (cs ++ ds) =
      if (resolveFlat ratio confirm mr lfArtist lfSong cs).1 = none then
        ((resolveFlat ratio confirm mr lfArtist lfSong ds).1,
         (resolveFlat ratio confirm mr lfArtist lfSong cs).2
           ++ (resolveFlat ratio confirm mr lfArtist lfSong ds).2)
      else resolveFlat ratio confirm mr lfArtist lfSong cs := by
  induction cs with
  | nil => simp [resolveFlat]
  | cons c cs ih =>
    by_cases h1 :
        ratio lfSong (pyLower c.songName) ≥ mr ∧ ratio lfArtist (pyLower c.artistName) ≥ mr
    · simp [resolveFlat, h1]
    · by_cases h2 :
          ratio lfSong (pyLower c.songName) + ratio lfArtist (pyLower c.artistName) ≥ 140
      · by_cases h3 : confirm (pyLower c.artistName, pyLower c.songName) (lfArtist, lfSong)
        · simp [resolveFlat, h1, h2, h3]
        · cases hr : (resolveFlat ratio confirm mr lfArtist lfSong cs).1 with
          | none => simp [resolveFlat, h1, h2, h3, ih, hr]
          | some st => simp [resolveFlat, h1, h2, h3, ih, hr]
      · simp [resolveFlat, h1, h2, ih]

lemma flattenItems_cons (it : SearchItem) (rest : List SearchItem) :
    flattenItems (it :: rest) =
      it.artists.map (fun a => Candidate.mk a.name it.name it.uri) ++ flattenItems rest := by
  simp [flattenItems]

/-- The nested item/artist scan equals the flat scan of the flattened
candidate list. -/
lemma findItemsMatch_eq (ratio : String → String → Nat)
    (confirm : String × String → String × String → Bool) (mr : Nat)
    (lfArtist lfSong : String) (items : List SearchItem) :
    findItemsMatch ratio confirm mr lfArtist lfSong items =
      resolveFlat ratio confirm mr lfArtist lfSong (flattenItems items) := by
  induction items with
  | nil => rfl
  | cons item rest ih =>
    rw [flattenItems_cons, resolveFlat_append, ← findArtistsMatch_eq]
    cases hr :
        (findArtistsMatch ratio confirm mr lfArtist lfSong item.name item.uri item.artists).1 with
    | none => simp [findItemsMatch, hr, ih]
    | some st =>
      simp [findItemsMatch, hr]
      rw [← hr]

/-- Unfolding of `skippedPrompts` over a head candidate. -/
lemma skippedPrompts_cons (ratio : String → String → Nat) (mr : Nat)
    (lfArtist lfSong : String) (c : Candidate) (cs : List Candidate) :
    skippedPrompts ratio mr lfArtist lfSong (c :: cs) =
      (if ¬ candAuto ratio mr lfArtist lfSong c ∧ candAmbiguous ratio lfArtist lfSong c
       then candPrompt lfArtist lfSong c :: skippedPrompts ratio mr lfArtist lfSong cs
       else skippedPrompts ratio mr lfArtist lfSong cs) := by
  by_cases h : ¬ candAuto ratio mr lfArtist lfSong c ∧ candAmbiguous ratio lfArtist lfSong c
  · rw [if_pos h]
    simp only [skippedPrompts, List.filter_cons]
    rw [if_pos (decide_eq_true h), List.map_cons]
  · rw [if_neg h]
    simp only [skippedPrompts, List.filter_cons]
    rw [if_neg (by rw [decide_eq_true_eq]; exact h)]

/-- Head candidate below both tiers: the scan just moves on. -/
lemma resolveFlat_reject_head (ratio : String → String → Nat)
    (confirm : String × String → String × String → Bool) (mr : Nat)
    (lfArtist lfSong : String) (c : Candidate) (rest : List Candidate)
    (hna : ¬ candAuto ratio mr lfArtist lfSong c)
    (hnam : ¬ candAmbiguous ratio lfArtist lfSong c) :
    resolveFlat ratio confirm mr lfArtist lfSong (c :: rest) =
      resolveFlat ratio confirm mr lfArtist lfSong rest := by
  simp [resolveFlat, hna, hnam]

/-- Head candidate auto-accepted: immediate return, no prompt. -/
lemma resolveFlat_auto_head (ratio : String → String → Nat)
    (confirm : String × String → String × String → Bool) (mr : Nat)
    (lfArtist lfSong : String) (c : Candidate) (rest : List Candidate)
    (hauto : candAuto ratio mr lfArtist lfSong c) :
    resolveFlat ratio confirm mr lfArtist lfSong (c :: rest) =
      (some (candSync lfArtist lfSong c), []) := by
  simp [resolveFlat, hauto.1, hauto.2, candSync]

/-- Head candidate ambiguous: one prompt; a yes returns the candidate, a no
continues with the rest. -/
lemma resolveFlat_ambiguous_head (ratio : String → String → Nat)
    (confirm : String × String → String × String → Bool) (mr : Nat)
    (lfArtist lfSong : String) (c : Candidate) (rest : List Candidate)
    (hna : ¬ candAuto ratio mr lfArtist lfSong c)
    (hambig : candAmbiguous ratio lfArtist lfSong c) :
    resolveFlat ratio confirm mr lfArtist lfSong (c :: rest) =
      (if confirmAns confirm lfArtist lfSong c then
        (some (candSync lfArtist lfSong c), [candPrompt lfArtist lfSong c])
      else
        ((resolveFlat ratio confirm mr lfArtist lfSong rest).1,
         candPrompt lfArtist lfSong c
           :: (resolveFlat ratio confirm mr lfArtist lfSong rest).2)) := by
  cases h3 : confirmAns confirm lfArtist lfSong c with
  | true =>
    rw [if_pos rfl]
    simp only [confirmAns] at h3
    simp [resolveFlat, hna, hambig, h3, candSync, candPrompt]
  | false =>
    rw [if_neg (by simp)]
    simp only [confirmAns] at h3
    simp [resolveFlat, hna, hambig, h3, candSync, candPrompt]

/-! ## Chunking and orchestrator lemmas -/

/-- `do_chunk` concatenates back to the original list. -/
lemma doChunk_flatten (n : Nat) (hn : 0 < n) (l : List α) : (doChunk n l).flatten = l := by
  have main : ∀ (k : Nat) (l : List α), l.length ≤ k → (doChunk n l).flatten = l := by
    intro k
    induction k with
    | zero =>
      intro l hl
      have he : l = [] := List.eq_nil_of_length_eq_zero (Nat.le_zero.mp hl)
      subst he
      rw [doChunk]
      simp
    | succ k ih =>
      intro l hl
      rw [doChunk]
      by_cases h : (l.take n).isEmpty
      · rw [dif_pos h]
        cases l with
        | nil => rfl
        | cons x xs =>
          exfalso
          have hz : n = 0 := by
            by_contra hn0
            obtain ⟨m, rfl⟩ := Nat.exists_eq_succ_of_ne_zero hn0
            simp [List.take_succ_cons] at h
          omega
      · rw [dif_neg h]
        have hne : l ≠ [] := by
          intro e
          rw [e] at h
          simp at h
        have hlen : (l.drop n).length ≤ k := by
          rw [List.length_drop]
          have h1 : 0 < l.length := List.length_pos.mpr hne
          omega
        rw [List.flatten_cons, ih _ hlen, List.take_append_drop]
  exact main l.length l le_rfl

/-- Every chunk `do_chunk` yields is non-empty and holds at most `n` elements. -/
lemma doChunk_mem (n : Nat) (l : List α) (c : List α) (hc : c ∈ doChunk n l) :
    c.length ≤ n ∧ c ≠ [] := by
  have main : ∀ (k : Nat) (l : List α), l.length ≤ k →
      ∀ c ∈ doChunk n l, c.length ≤ n ∧ c ≠ [] := by
    intro k
    induction k with
    | zero =>
      intro l hl c hc
      have he : l = [] := List.eq_nil_of_length_eq_zero (Nat.le_zero.mp hl)
      subst he
      rw [doChunk] at hc
      simp at hc
    | succ k ih =>
      intro l hl c hc
      rw [doChunk] at hc
      by_cases h : (l.take n).isEmpty
      · rw [dif_pos h] at hc
        simp at hc
      · rw [dif_neg h] at hc
        rcases List.mem_cons.mp hc with rfl | hc2
        · refine ⟨by rw [List.length_take]; exact min_le_left _ _, ?_⟩
          intro e
          rw [e] at h
          simp at h
        · have hne : l ≠ [] := by
            intro e
            rw [e] at h
            simp at h
          have hs : 0 < n := by
            rcases Nat.eq_zero_or_pos n with hz | hp
            · rw [hz] at h
              simp at h
            · exact hp
          have hlen : (l.drop n).length ≤ k := by
            rw [List.length_drop]
            have h1 : 0 < l.length := List.length_pos.mpr hne
            omega
          exact ih (l.drop n) hlen c hc2
  exact main l.length l le_rfl c hc

/-- Every chunk but the last holds exactly `n` elements. -/
lemma doChunk_dropLast (n : Nat) (l : List α) :
    ∀ c ∈ (doChunk n l).dropLast, c.length = n := by
  have main : ∀ (k : Nat) (l : List α), l.length ≤ k →
      ∀ c ∈ (doChunk n l).dropLast, c.length = n := by
    intro k
    induction k with
    | zero =>
      intro l hl c hc
      have he : l = [] := List.eq_nil_of_length_eq_zero (Nat.le_zero.mp hl)
      subst he
      rw [doChunk] at hc
      simp at hc
    | succ k ih =>
      intro l hl c hc
      rw [doChunk] at hc
      by_cases h : (l.take n).isEmpty
      · rw [dif_pos h] at hc
        simp at hc
      · rw [dif_neg h] at hc
        have hne : l ≠ [] := by
          intro e
          rw [e] at h
          simp at h
        have hs : 0 < n := by
          rcases Nat.eq_zero_or_pos n with hz | hp
          · rw [hz] at h
            simp at h
          · exact hp
        have hlen : (l.drop n).length ≤ k := by
          rw [List.length_drop]
          have h1 : 0 < l.length := List.length_pos.mpr hne
          omega
        cases hrest : doChunk n (l.drop n) with
        | nil =>
          rw [hrest] at hc
          simp at hc
        | cons y ys =>
          rw [hrest, List.dropLast_cons₂] at hc
          rcases List.mem_cons.mp hc with rfl | hc2
          · have hdrop : l.drop n ≠ [] := by
              intro e
              rw [doChunk, e] at hrest
              simp at hrest
            have h1 : n < l.length := by
              have h2 : 0 < (l.drop n).length := List.length_pos.mpr hdrop
              rw [List.length_drop] at h2
              omega
            rw [List.length_take]
            omega
          · rw [← hrest] at hc2
            exact ih (l.drop n) hlen c hc2
  exact main l.length l le_rfl

/-- `tracks_to_load` is the resolved-match list filtered by playlist
membership of the target uri. -/
lemma syncLoop_loads (resolveTrack : LovedTrack → Option SyncTrack) (track_uris : List String)
    (l : List LovedTrack) :
    (syncLoop resolveTrack track_uris l).1 =
      (l.filterMap resolveTrack).filter
        (fun st => decide (st.spotify_track_uri ∉ track_uris)) := by
  induction l with
  | nil => rfl
  | cons t ts ih =>
    cases hr : resolveTrack t with
    | none => simp [syncLoop, hr, ih]
    | some st =>
      by_cases hm : st.spotify_track_uri ∈ track_uris
      · simp [syncLoop, hr, hm, ih, List.filterMap_cons, List.filter_cons]
      · simp [syncLoop, hr, hm, ih, List.filterMap_cons, List.filter_cons]

/-- `missed_tracks` holds exactly the tracks with no match plus the tracks
whose match's uri is already in the playlist. -/
lemma syncLoop_missed (resolveTrack : LovedTrack → Option SyncTrack) (track_uris : List String)
    (l : List LovedTrack) :
    (syncLoop resolveTrack track_uris l).2 =
      l.filter (fun t =>
        match resolveTrack t with
        | none => true
        | some st => decide (st.spotify_track_uri ∈ track_uris)) := by
  induction l with
  | nil => rfl
  | cons t ts ih =>
    cases hr : resolveTrack t with
    | none => simp [syncLoop, hr, ih, List.filter_cons]
    | some st =>
      by_cases hm : st.spotify_track_uri ∈ track_uris
      · simp [syncLoop, hr, hm, ih, List.filter_cons]
      · simp [syncLoop, hr, hm, ih, List.filter_cons]

/-- The scan walks over a passed-over candidate, prompting exactly on the
ambiguous (non-auto) ones. -/
lemma resolveFlat_skip (ratio : String → String → Nat)
    (confirm : String × String → String × String → Bool) (mr : Nat)
    (lfArtist lfSong : String) (pre rest : List Candidate)
    (hpre : ∀ c ∈ pre, candSkipped ratio confirm mr lfArtist lfSong c) :
    resolveFlat ratio confirm mr lfArtist lfSong (pre ++ rest) =
      ((resolveFlat ratio confirm mr lfArtist lfSong rest).1,
       skippedPrompts ratio mr lfArtist lfSong pre
         ++ (resolveFlat ratio confirm mr lfArtist lfSong rest).2) := by
  induction pre with
  | nil => simp [skippedPrompts]
  | cons c pre ih =>
    obtain ⟨hna, hnc⟩ := hpre c (by simp)
    have hpre2 : ∀ c2 ∈ pre, candSkipped ratio confirm mr lfArtist lfSong c2 :=
      fun c2 hc2 => hpre c2 (by simp [hc2])
    rw [List.cons_append]
    by_cases h2 : candAmbiguous ratio lfArtist lfSong c
    · have h3 : confirmAns confirm lfArtist lfSong c = false := by
        cases hc3 : confirmAns confirm lfArtist lfSong c
        · rfl
        · exact absurd ⟨h2, hc3⟩ hnc
      rw [resolveFlat_ambiguous_head ratio confirm mr lfArtist lfSong c _ hna h2, h3,
        if_neg (by simp), ih hpre2, skippedPrompts_cons, if_pos ⟨hna, h2⟩, List.cons_append]
    · rw [resolveFlat_reject_head ratio confirm mr lfArtist lfSong c _ hna h2, ih hpre2,
        skippedPrompts_cons, if_neg (fun hh => h2 hh.2)]

end Syncer

namespace Syncer

/-- C1: the spec's cache contract says `load()` returns the empty set when no
prior cache state exists and never errors on "file not found"; the code opens
`.cache_processed` in mode `r+`, which raises `FileNotFoundError` on an absent
file (a first run with no cache crashes), while an existing empty file does
load as the empty list. -/
theorem load_processed_tracks_absent_errors :
    load_processed_tracks CacheFile.absent = Except.error FsError.fileNotFound ∧
    load_processed_tracks CacheFile.empty = Except.ok [] :=
  ⟨rfl, rfl⟩

/-- C6: during a run of `sync_spotify_likes_with_lastfm` the like effects are
exactly those for source tracks whose id is missing from the loaded cache (a
cached id is skipped with no side effect, an uncached one is processed), and
the persisted cache is the loaded cache united with the accumulated new ids —
ids are only ever added, never removed. -/
theorem sync_likes_processed_set_monotone (tracks : List SpTrack) (cached : Finset String) :
    syncLikes tracks cached =
      (tracks.filter (fun t => decide (t.id ∉ cached))).map (fun t => (t.artist, t.name)) ∧
    cacheAfterRun tracks cached = cached ∪ syncNewIds tracks cached :=
  ⟨syncLikes_eq_filter tracks cached, cacheAfterRun_eq tracks cached⟩

/-- C8: the cache file is rewritten at end of run iff the `new_ids`
accumulator is non-empty (the code's test `new_ids.difference(cached)` equals
`new_ids` because only uncached ids are accumulated); when the accumulator is
empty no write happens and the persisted state is unchanged. -/
theorem sync_dump_iff_new_ids (tracks : List SpTrack) (cached : Finset String) :
    syncDump tracks cached =
      (if syncNewIds tracks cached = ∅ then none
       else some (cached ∪ syncNewIds tracks cached)) ∧
    cacheAfterRun tracks cached =
      (if syncNewIds tracks cached = ∅ then cached
       else cached ∪ syncNewIds tracks cached) := by
  refine ⟨syncDump_eq tracks cached, ?_⟩
  rw [cacheAfterRun_eq]
  by_cases h : syncNewIds tracks cached = ∅ <;> simp [h]

/-- C5: running the sync-likes pass a second time on the same source list,
starting from the cache persisted by the first run, produces no LastFM like
effect at all and performs no cache write — every id processed by the first
run is in the loaded set and is skipped. -/
theorem sync_likes_idempotent (tracks : List SpTrack) (cached : Finset String) :
    syncLikes tracks (cacheAfterRun tracks cached) = [] ∧
    syncDump tracks (cacheAfterRun tracks cached) = none := by
  constructor
  · rw [syncLikes_eq_filter, filter_cacheAfterRun_nil]
    rfl
  · rw [syncDump_eq, if_pos]
    rw [syncNewIds_eq, filter_cacheAfterRun_nil]
    rfl

/-- C2 (counterexample): in the only execution mode the code has — resolver
run at its sole configuration, the default `match_ratio = 85`, with the
blocking interactive prompt answering yes — an ambiguous-tier candidate
(scores 70/70: combined 140, not both at 85) is prompted for and returns a
match via that tier; it is not treated as declined, so no configuration
switch provides a non-interactive always-decline mode. -/
theorem no_noninteractive_switch_counterexample :
    ¬ candAuto exRatio70 85 "a" "b" (Candidate.mk "x" "y" "u1") ∧
    candAmbiguous exRatio70 "a" "b" (Candidate.mk "x" "y" "u1") ∧
    findSearchMatch exRatio70 exYes exTrack exResultsOne 85 =
      (some { last_fm_artist := "a", last_fm_song := "b", spotify_track_uri := "u1" },
       [(("x", "y"), ("a", "b"))]) := by
  refine ⟨by decide, by decide, by decide⟩

/-- C2 (amended): there is no non-interactive configuration switch in the
code. For every value of the sole configuration parameter `match_ratio`, a
candidate scoring 70/70 is either auto-accepted (threshold at most 70, no
prompt) or resolved through the interactive confirmation prompt (threshold
above 70, exactly one prompt, yes-answer returns the match); in no
configuration is the ambiguous candidate unconditionally declined. -/
theorem no_noninteractive_switch (mr : Nat) :
    findSearchMatch exRatio70 exYes exTrack exResultsOne mr =
      (some { last_fm_artist := "a", last_fm_song := "b", spotify_track_uri := "u1" },
       if 70 ≥ mr then [] else [(("x", "y"), ("a", "b"))]) := by
  by_cases h : 70 ≥ mr
  · rw [if_pos h]
    simp [findSearchMatch, findItemsMatch, findArtistsMatch, exRatio70, exYes, exTrack,
      exResultsOne, h]
    all_goals decide
  · rw [if_neg h]
    simp [findSearchMatch, findItemsMatch, findArtistsMatch, exRatio70, exYes, exTrack,
      exResultsOne, h]
    all_goals decide

/-- C3 (counterexample): an ambiguous-tier candidate (scores 70/70 under
`exRatioEq`, combined 140, not both at 85) preceded by an auto-accepted
candidate is never presented for confirmation: the resolver returns the
earlier candidate and the prompt log stays empty, so the confirmation channel
is not invoked "exactly once for that candidate". -/
theorem ambiguous_confirmation_counterexample :
    candAmbiguous exRatioEq "a" "b" (Candidate.mk "aa" "bb" "u2") ∧
    ¬ candAuto exRatioEq 85 "a" "b" (Candidate.mk "aa" "bb" "u2") ∧
    (Candidate.mk "aa" "bb" "u2") ∈ flattenItems exResultsAutoAmbig.items ∧
    findSearchMatch exRatioEq exYes exTrack exResultsAutoAmbig 85 =
      (some { last_fm_artist := "a", last_fm_song := "b", spotify_track_uri := "u1" }, []) := by
  refine ⟨by decide, by decide, by decide, by decide⟩

/-- C3 (amended): for every candidate the resolver actually reaches — all
earlier candidates being neither auto-accepted nor ambiguous-confirmed — whose
combined score reaches 140 but which is not auto-accepted, the confirmation
channel is invoked exactly once for that candidate, after the prompts of the
earlier declined ambiguous candidates; a yes returns that candidate's match
immediately (nothing after it is examined), a no moves on to the remaining
candidates without rejecting the whole search. -/
theorem find_search_match_ambiguous_tier
    (ratio : String → String → Nat) (confirm : String × String → String × String → Bool)
    (mr : Nat) (track : LovedTrack) (results : SearchResults)
    (pre : List Candidate) (c : Candidate) (post : List Candidate)
    (htotal : results.total ≠ 0)
    (hflat : flattenItems results.items = pre ++ c :: post)
    (hpre : ∀ c2 ∈ pre,
      candSkipped ratio confirm mr (pyLower track.artistName) (pyLower track.trackName) c2)
    (hna : ¬ candAuto ratio mr (pyLower track.artistName) (pyLower track.trackName) c)
    (hambig : candAmbiguous ratio (pyLower track.artistName) (pyLower track.trackName) c) :
    findSearchMatch ratio confirm track results mr =
      (if confirmAns confirm (pyLower track.artistName) (pyLower track.trackName) c then
        (some (candSync (pyLower track.artistName) (pyLower track.trackName) c),
         skippedPrompts ratio mr (pyLower track.artistName) (pyLower track.trackName) pre
           ++ [candPrompt (pyLower track.artistName) (pyLower track.trackName) c])
      else
        ((resolveFlat ratio confirm mr (pyLower track.artistName) (pyLower track.trackName)
            post).1,
         skippedPrompts ratio mr (pyLower track.artistName) (pyLower track.trackName) pre
           ++ candPrompt (pyLower track.artistName) (pyLower track.trackName) c
             :: (resolveFlat ratio confirm mr (pyLower track.artistName) (pyLower track.trackName)
                post).2)) := by
  rw [findSearchMatch, if_neg htotal, findItemsMatch_eq, hflat,
    resolveFlat_skip _ _ _ _ _ _ _ hpre, resolveFlat_ambiguous_head _ _ _ _ _ _ _ hna hambig]
  cases h3 : confirmAns confirm (pyLower track.artistName) (pyLower track.trackName) c
  · simp
  · simp

/-- C3 (witness): the amended theorem applied to the concrete one-candidate
scenario with an always-yes channel. -/
theorem find_search_match_ambiguous_tier_witness :
    findSearchMatch exRatio70 exYes exTrack exResultsOne 85 =
      (if confirmAns exYes (pyLower exTrack.artistName) (pyLower exTrack.trackName)
          (Candidate.mk "x" "y" "u1") then
        (some (candSync (pyLower exTrack.artistName) (pyLower exTrack.trackName)
            (Candidate.mk "x" "y" "u1")),
         skippedPrompts exRatio70 85 (pyLower exTrack.artistName) (pyLower exTrack.trackName) []
           ++ [candPrompt (pyLower exTrack.artistName) (pyLower exTrack.trackName)
                (Candidate.mk "x" "y" "u1")])
      else
        ((resolveFlat exRatio70 exYes 85 (pyLower exTrack.artistName) (pyLower exTrack.trackName)
            []).1,
         skippedPrompts exRatio70 85 (pyLower exTrack.artistName) (pyLower exTrack.trackName) []
           ++ candPrompt (pyLower exTrack.artistName) (pyLower exTrack.trackName)
              (Candidate.mk "x" "y" "u1")
             :: (resolveFlat exRatio70 exYes 85 (pyLower exTrack.artistName)
                (pyLower exTrack.trackName) []).2)) :=
  find_search_match_ambiguous_tier exRatio70 exYes 85 exTrack exResultsOne []
    (Candidate.mk "x" "y" "u1") [] (by decide) (by decide) (by decide) (by decide) (by decide)

/-- C4 (counterexample): the first candidate whose scores are both at least 85
(uri `u2` here) is not returned when an earlier ambiguous candidate is
confirmed by the channel: the resolver returns the earlier candidate's match
(uri `u1`) after one prompt, so the auto candidate is neither returned nor
reached. -/
theorem auto_tier_counterexample :
    candAuto exRatioEq 85 "a" "b" (Candidate.mk "a" "b" "u2") ∧
    ¬ candAuto exRatioEq 85 "a" "b" (Candidate.mk "aa" "bb" "u1") ∧
    (Candidate.mk "a" "b" "u2") ∈ flattenItems exResultsAmbigAuto.items ∧
    findSearchMatch exRatioEq exYes exTrack exResultsAmbigAuto 85 =
      (some { last_fm_artist := "a", last_fm_song := "b", spotify_track_uri := "u1" },
       [(("aa", "bb"), ("a", "b"))]) := by
  refine ⟨by decide, by decide, by decide, by decide⟩

/-- C4 (amended): the first candidate with both scores at the threshold that
the resolver actually reaches — all earlier candidates being neither
auto-accepted nor ambiguous-confirmed — is returned as the match immediately:
no prompt is issued for it, no later candidate is examined, and the prompt log
holds only the earlier declined ambiguous candidates' prompts. -/
theorem find_search_match_auto_tier
    (ratio : String → String → Nat) (confirm : String × String → String × String → Bool)
    (mr : Nat) (track : LovedTrack) (results : SearchResults)
    (pre : List Candidate) (c : Candidate) (post : List Candidate)
    (htotal : results.total ≠ 0)
    (hflat : flattenItems results.items = pre ++ c :: post)
    (hpre : ∀ c2 ∈ pre,
      candSkipped ratio confirm mr (pyLower track.artistName) (pyLower track.trackName) c2)
    (hauto : candAuto ratio mr (pyLower track.artistName) (pyLower track.trackName) c) :
    findSearchMatch ratio confirm track results mr =
      (some (candSync (pyLower track.artistName) (pyLower track.trackName) c),
       skippedPrompts ratio mr (pyLower track.artistName) (pyLower track.trackName) pre) := by
  rw [findSearchMatch, if_neg htotal, findItemsMatch_eq, hflat,
    resolveFlat_skip _ _ _ _ _ _ _ hpre, resolveFlat_auto_head _ _ _ _ _ _ _ hauto]
  simp

/-- C4 (witness): the amended theorem applied to the concrete scenario of one
declined ambiguous candidate followed by an exact candidate. -/
theorem find_search_match_auto_tier_witness :
    findSearchMatch exRatioEq exNo exTrack exResultsAmbigAuto 85 =
      (some (candSync (pyLower exTrack.artistName) (pyLower exTrack.trackName)
          (Candidate.mk "a" "b" "u2")),
       skippedPrompts exRatioEq 85 (pyLower exTrack.artistName) (pyLower exTrack.trackName)
         [Candidate.mk "aa" "bb" "u1"]) :=
  find_search_match_auto_tier exRatioEq exNo 85 exTrack exResultsAmbigAuto
    [Candidate.mk "aa" "bb" "u1"] (Candidate.mk "a" "b" "u2") [] (by decide) (by decide)
    (by decide) (by decide)

/-- C7: in `sync_liked_tracks_from_lastfm_with_spotify`, `tracks_to_load` is
the list of resolved matches — computed by `_find_search_match` without any
reference to the playlist's uris — filtered afterwards by playlist
membership; and the uris pushed by the playlist insertion calls are exactly
the uris of that filtered list, so a match whose uri is already in the
playlist receives no target-side effect. -/
theorem resolver_playlist_decoupled (ratio : String → String → Nat)
    (confirm : String × String → String × String → Bool)
    (search : String → SearchResults) (track_uris : List String)
    (loved : List LovedTrack) :
    syncLastfmLoads ratio confirm search track_uris loved =
      (loved.filterMap
          (fun t => (findSearchMatch ratio confirm t (search (searchQuery t)) 85).1)).filter
        (fun st => decide (st.spotify_track_uri ∉ track_uris)) ∧
    (syncLastfmPlaylistCalls ratio confirm search track_uris loved).flatten =
      (syncLastfmLoads ratio confirm search track_uris loved).map
        (fun t => t.spotify_track_uri) := by
  constructor
  · rw [syncLastfmLoads, syncLoop_loads]
    rfl
  · rw [syncLastfmPlaylistCalls]
    by_cases h : syncLastfmLoads ratio confirm search track_uris loved = []
    · rw [if_pos h, h]
      rfl
    · rw [if_neg h, addLikedTracksCalls, ← List.map_flatten,
        doChunk_flatten 100 (by norm_num)]

/-- C9: the playlist insertion side effect partitions the resolved track list
into consecutive batches whose concatenation, in application order, is
exactly the resolved uris in resolution order; every batch is non-empty with
at most 100 uris, and every batch except the last holds exactly 100. -/
theorem add_liked_tracks_chunking (tracks_to_load : List SyncTrack) :
    (addLikedTracksCalls tracks_to_load).flatten =
      tracks_to_load.map (fun t => t.spotify_track_uri) ∧
    ((addLikedTracksCalls tracks_to_load).all
        (fun call => decide (call.length ≤ 100) && !call.isEmpty)) = true ∧
    ((addLikedTracksCalls tracks_to_load).dropLast.all
        (fun call => decide (call.length = 100))) = true := by
  refine ⟨?_, ?_, ?_⟩
  · rw [addLikedTracksCalls, ← List.map_flatten, doChunk_flatten 100 (by norm_num)]
  · rw [List.all_eq_true]
    intro call hcall
    rw [addLikedTracksCalls] at hcall
    obtain ⟨chunk, hchunk, rfl⟩ := List.mem_map.mp hcall
    obtain ⟨h1, h2⟩ := doChunk_mem 100 tracks_to_load chunk hchunk
    simp [h1, h2]
  · rw [List.all_eq_true]
    intro call hcall
    rw [addLikedTracksCalls, ← List.map_dropLast] at hcall
    obtain ⟨chunk, hchunk, rfl⟩ := List.mem_map.mp hcall
    have h3 := doChunk_dropLast 100 tracks_to_load chunk hchunk
    simp [h3]

/-- C10: a source track whose resolved match's uri is already in the playlist
is appended to `missed_tracks`, exactly as a track with no match at all: the
missed list is the filter keeping unmatched tracks and matched tracks whose
uri is already present. -/
theorem matched_already_present_missed (ratio : String → String → Nat)
    (confirm : String × String → String × String → Bool)
    (search : String → SearchResults) (track_uris : List String)
    (loved : List LovedTrack) :
    syncLastfmMissed ratio confirm search track_uris loved =
      loved.filter (fun t =>
        match (findSearchMatch ratio confirm t (search (searchQuery t)) 85).1 with
        | none => true
        | some st => decide (st.spotify_track_uri ∈ track_uris)) := by
  rw [syncLastfmMissed, syncLoop_missed]
  rfl

end Syncer
